import Mathlib

/-!
A shallow embedding of the Go package `cpanic` (src/cpanic.go) and proofs of
the specified properties of its four operations `Recover`, `Go`, `Forward`
and `New`, and of the accessors `Panic.Error` and `Panic.String`.

Modelling conventions:
* A Go `interface{}` value carried by a panic is `GoValue`; `GoValue.format`
  is its `fmt.Sprintf("%v", ·)` rendering (a string renders as itself, an
  error value renders as its `Error()` string, anything else carries its
  rendering).
* A Go `error` interface value is `GoError`; `nil` errors are modelled with
  `Option GoError` (`none` = nil).
* The runtime's panic machinery is an explicit `PanicState`: either no panic
  is in flight, or a panic is in flight carrying a `recover()` payload
  (`Option GoValue`, with `none` modelling `panic(nil)` under pre-Go-1.21
  semantics, where `recover()` returns nil yet still stops the unwinding).
* The deferred functions `Recover` and `Forward` become pure functions from
  the state at defer time (panic state, pointer/slot contents) to a result
  record that also reports whether the `recover` primitive was invoked and,
  for `Recover`, the list of arguments the handler was called with.
* `runtime.Stack(trace[:], true)` and `time.Now()` are opaque capabilities:
  an `Env` supplies the instant and the full textual stack dump available at
  capture time; `runtime.Stack` writes at most the buffer's `1 <<< 16` bytes
  and returns the count written, so `New` keeps the first `1 <<< 16` bytes
  (modelled as characters of the dump string, stack dumps being ASCII text).
-/

namespace Cpanic

/-- A Go `interface{}` value as carried by a panic. -/
inductive GoValue where
  | str (s : String)
  | errVal (msg : String)
  | other (rendered : String)
deriving DecidableEq, Repr

/-- The `fmt.Sprintf("%v", v)` rendering of a carried value. -/
def GoValue.format : GoValue → String
  | .str s => s
  | .errVal m => m
  | .other r => r

/-- The struct `Panic` of src/cpanic.go: capture time, carried value,
stack dump of all goroutines at capture time. -/
structure Panic where
  Time : Nat
  Value : GoValue
  Trace : String
deriving DecidableEq, Repr

/-- `func (p *Panic) Error() string { return fmt.Sprintf("panic: %v", p.Value) }` -/
def Panic.Error (p : Panic) : String :=
  "panic: " ++ p.Value.format

/-- `func (p *Panic) String() string { return fmt.Sprintf("%s\n\n%s", p.Error(), p.Trace) }` -/
def Panic.String (p : Panic) : String :=
  Panic.Error p ++ "\n\n" ++ p.Trace

/-- A Go `error` interface value: either a `*Panic` or any other error
(carrying its `Error()` string, e.g. from `errors.New`). -/
inductive GoError where
  | panicErr (p : Panic)
  | errorString (s : String)
deriving DecidableEq, Repr

/-- The `Error()` string of a non-nil Go error value. -/
def GoError.msg : GoError → String
  | .panicErr p => Panic.Error p
  | .errorString s => s

/-- The opaque runtime capabilities used by `New`: the current instant
(`time.Now()`) and the full textual dump of all goroutine stacks that
`runtime.Stack` would produce given an unbounded buffer. -/
structure Env where
  now : Nat
  stackDump : String
deriving DecidableEq, Repr

/-- The size of the capture buffer `var trace [1 << 16]byte` in `New`. -/
def stackBufSize : Nat := 1 <<< 16

/-- `func New(v interface{}) *Panic`: records the current time, captures the
stacks of all goroutines into the fixed `1 <<< 16`-byte buffer (whatever
exceeds it is dropped, since `runtime.Stack` writes at most `len(buf)` bytes
and returns the count `n` actually written), and packages `v` unchanged. -/
def New (env : Env) (v : GoValue) : Panic :=
  { Time := env.now
    Value := v
    Trace := String.mk (env.stackDump.data.take stackBufSize) }

/-- The state of the Go runtime's panic machinery at the moment a deferred
function runs: either no panic is in flight, or one is, carrying the value
`recover()` would return (`none` models `panic(nil)` pre Go 1.21). -/
inductive PanicState where
  | noFault
  | inFlight (v : Option GoValue)
deriving DecidableEq, Repr

/-- The `recover()` builtin: when a panic is in flight it returns the carried
value and stops the unwinding (even when the carried value is nil); with no
panic in flight it returns nil and changes nothing. -/
def recoverPrim : PanicState → Option GoValue × PanicState
  | .noFault => (none, .noFault)
  | .inFlight v => (v, .noFault)

/-- `type Handler func(p *Panic)` — the handler body is opaque; `Recover`'s
result records each argument it was invoked with. -/
def Handler : Type := Panic → Unit

/-- The observable outcome of running deferred `Recover`: the list of
arguments the handler was invoked with (in order), the panic state after the
deferred call, and whether the `recover` primitive was invoked. -/
structure RecoverOut where
  calls : List Panic
  panic : PanicState
  recoverCalled : Bool
deriving DecidableEq, Repr

/-- `func Recover(handler Handler)` run as a deferred call: a nil handler
returns immediately (never calling `recover`); otherwise `recover()` is
invoked and, when its value is non-nil, the handler is called with
`New(value)`. -/
def Recover (env : Env) (handler : Option Handler) (ps : PanicState) : RecoverOut :=
  match handler with
  | none => ⟨[], ps, false⟩
  | some _ =>
    match recoverPrim ps with
    | (some v, ps') => ⟨[New env v], ps', true⟩
    | (none, ps') => ⟨[], ps', true⟩

/-- The observable outcome of running deferred `Forward`: the pointer and the
slot it points to after the deferred call (`none` = nil pointer, `some s` =
pointer to a slot holding `s`), the panic state after it, and whether the
`recover` primitive was invoked. -/
structure ForwardOut where
  errPtr : Option (Option GoError)
  panic : PanicState
  recoverCalled : Bool
deriving DecidableEq, Repr

/-- `func Forward(errPtr *error)` run as a deferred call: a nil pointer
returns immediately (never calling `recover`); otherwise `recover()` is
invoked and, when its value is non-nil and the slot holds nil, the slot is
set to `New(value)`; a non-nil slot is left untouched. -/
def Forward (env : Env) (errPtr : Option (Option GoError)) (ps : PanicState) : ForwardOut :=
  match errPtr with
  | none => ⟨none, ps, false⟩
  | some slot =>
    match recoverPrim ps with
    | (some v, ps') =>
      match slot with
      | none => ⟨some (some (.panicErr (New env v))), ps', true⟩
      | some e => ⟨some (some e), ps', true⟩
    | (none, ps') => ⟨some slot, ps', true⟩

/-- How a call to the caller-supplied `fn func() error` ends: a normal return
carrying an error value (possibly nil), or a panic carrying a `recover()`
payload. -/
inductive FnResult where
  | ret (e : Option GoError)
  | panics (v : Option GoValue)
deriving DecidableEq, Repr

/-- How a guarded section ends as seen from outside: a normal return with an
error value, or a panic escaping past the deferred interception point. -/
inductive RunResult where
  | returns (e : Option GoError)
  | escapes (v : Option GoValue)
deriving DecidableEq, Repr

/-- The named return slot `err` and the panic state of `Go` at the moment its
deferred `Forward(&err)` runs: a normal `return fn()` assigns `fn`'s result
to `err` first; a panic in `fn` leaves `err` at its zero value nil. -/
def initialSlotAndPanic : FnResult → Option GoError × PanicState
  | .ret e => (e, .noFault)
  | .panics v => (none, .inFlight v)

/-- `func Go(fn func() error) (err error) { defer Forward(&err); return fn() }`:
runs `fn`, then the deferred `Forward` on the named return slot; the result
is the slot's final contents, unless a panic is still in flight afterwards. -/
def Go (env : Env) (fn : FnResult) : RunResult :=
  let sp := initialSlotAndPanic fn
  let out := Forward env (some sp.1) sp.2
  match out.panic with
  | .inFlight v => .escapes v
  | .noFault => .returns out.errPtr.join

/-- A function `func() (err error)` whose body ends with slot contents
`errAtDefer` and panic state `ps`, guarded by its own `defer Forward(&err)`:
the composite returns the slot's final contents, or panics onward if the
panic survives the deferred call. Models the test operation that assigns
`err` and then panics behind its own deferred `Forward`. -/
def runWithForward (env : Env) (errAtDefer : Option GoError) (ps : PanicState) : FnResult :=
  let out := Forward env (some errAtDefer) ps
  match out.panic with
  | .inFlight v => .panics v
  | .noFault => .ret out.errPtr.join

/-- C1: For every operation `fn` cut short by a panic carrying a non-nil
value (the named return slot of `Go` still holding nil at that moment),
`Go(fn)` returns a non-nil `*Panic` error whose `Error()` string is
`"panic: "` followed by the string form of the panicked value. -/
theorem go_panic_yields_panic_error (env : Env) (v : GoValue) :
    Go env (.panics (some v)) = .returns (some (.panicErr (New env v))) ∧
    GoError.msg (.panicErr (New env v)) = "panic: " ++ v.format := by
  exact ⟨rfl, rfl⟩

/-- C2: When `Forward` intercepts a panic and the pointed-to slot already
holds a non-nil error, the slot is left unchanged (the fresh `Panic` record
is discarded); in particular an operation that assigns a non-nil error and
then panics behind its own deferred `Forward` makes `Go` return that
assigned error, never a `*Panic`. -/
theorem forward_keeps_existing_error (env env2 : Env) (e : GoError) (v : Option GoValue) :
    (Forward env (some (some e)) (.inFlight v)).errPtr = some (some e) ∧
    Go env2 (runWithForward env (some e) (.inFlight v)) = .returns (some e) := by
  cases v <;> exact ⟨rfl, rfl⟩

/-- C3: For every operation that runs to completion without a panic, `Go`
returns exactly the error value the operation returned, unchanged —
including nil. -/
theorem go_normal_return_passthrough (env : Env) (e : Option GoError) :
    Go env (.ret e) = .returns e := by
  rfl

/-- C4: With a nil handler, a deferred `Recover` performs no interception:
`recover` is never invoked, the handler is never called, and an in-flight
panic keeps propagating unchanged. -/
theorem recover_nil_handler_no_interception (env : Env) (v : Option GoValue) :
    Recover env none (.inFlight v) = ⟨[], .inFlight v, false⟩ := by
  rfl

/-- C5: With a nil error pointer, a deferred `Forward` performs no
interception: `recover` is never invoked and an in-flight panic keeps
propagating unchanged, never becoming an error value. -/
theorem forward_nil_pointer_no_interception (env : Env) (v : Option GoValue) :
    Forward env none (.inFlight v) = ⟨none, .inFlight v, false⟩ := by
  rfl

/-- C6: With a non-nil handler and a panic carrying a non-nil value,
`Recover` consumes the panic (the state afterwards holds no in-flight panic)
and invokes the handler exactly once, with a freshly built `Panic` record
whose `Value` field is the intercepted payload. -/
theorem recover_consumes_and_invokes_handler (env : Env) (h : Handler) (v : GoValue) :
    Recover env (some h) (.inFlight (some v)) = ⟨[New env v], .noFault, true⟩ ∧
    (New env v).Value = v := by
  exact ⟨rfl, rfl⟩

/-- C7: For every `Panic` record `p`, `String()` is `Error()` followed by a
blank line followed by the stack dump, so the short message is a strict
prefix of the full detail. -/
theorem string_is_error_blank_line_trace (p : Panic) :
    Panic.String p = Panic.Error p ++ "\n\n" ++ p.Trace ∧
    (Panic.Error p).length < (Panic.String p).length := by
  refine ⟨rfl, ?_⟩
  have h2 : ("\n\n" : String).length = 2 := rfl
  simp [Panic.String, String.length_append]
  omega

/-- C8: With a non-nil error pointer and no panic in flight, a deferred
`Forward` writes nothing: the slot keeps exactly what the protected code
left in it, nil or not. -/
theorem forward_no_panic_leaves_slot (env : Env) (s : Option GoError) :
    Forward env (some s) .noFault = ⟨some s, .noFault, true⟩ := by
  rfl

/-- C9: `New` captures the stack dump into a fixed `1 <<< 16 = 65536`-byte
buffer: the record is exactly the capture time, the value unchanged, and the
first 65536 bytes of the dump — so the `Trace` field is at most 65536 bytes
long, silently truncated with no extra signal when the dump is longer. -/
theorem new_trace_bounded_and_truncated (env : Env) (v : GoValue) :
    New env v = ⟨env.now, v, String.mk (env.stackDump.data.take 65536)⟩ ∧
    (New env v).Trace.length = min env.stackDump.length 65536 ∧
    (New env v).Trace.length ≤ 65536 := by
  have h1 : (New env v).Trace.length = (env.stackDump.data.take 65536).length := rfl
  have h2 : env.stackDump.length = env.stackDump.data.length := rfl
  have h3 : (New env v).Trace.length = min env.stackDump.length 65536 := by
    rw [h1, List.length_take, h2, Nat.min_comm]
  exact ⟨rfl, h3, by rw [h3]; exact Nat.min_le_right _ _⟩

/-- C10: When `recover()` returns nil while a panic is in flight (as for
`panic(nil)` pre Go 1.21), both `Recover` with a non-nil handler and
`Forward` with a non-nil pointer to an empty slot consume the panic yet
record nothing: the handler is never invoked and the slot stays nil. -/
theorem nil_panic_consumed_unrecorded (env : Env) (h : Handler) :
    Recover env (some h) (.inFlight none) = ⟨[], .noFault, true⟩ ∧
    Forward env (some none) (.inFlight none) = ⟨some none, .noFault, true⟩ := by
  exact ⟨rfl, rfl⟩

end Cpanic
